import Mathlib

/-!
Verification of the apt-proxy resource of `terraform-provider-nexus`
(`src/nexus/resource_repository_apt_proxy.go`).

The file shallowly embeds the schema-to-domain marshaling function
`getRepositoryAptProxyFromResourceData`, the five CRUD handlers, and the
client interface they delegate to.  Terraform resource data is modelled as
a typed record mirroring the HCL schema declared in the source file; the
Terraform SDK's dynamically typed storage (`interface{}` values) is made
explicit through the `GoVal` type, so that every Go type assertion the
source performs is visible: an assertion against the wrong dynamic type is
a Go panic and is modelled by `Option` failure (`none`).
-/

namespace Nexus

/-- A dynamically typed Go value as stored by the Terraform SDK for the
schema of the apt proxy resource: strings, bools, ints, `*int`, slices
(`[]interface\x7b\x7d`), maps (`map[string]interface\x7b\x7d`),
`*schema.Set`, and the nil interface. -/
inductive GoVal where
  | goStr (s : String)
  | goBool (b : Bool)
  | goInt (n : Int)
  | goPtrInt (p : Option Int)
  | goList (l : List GoVal)
  | goMap (m : String → GoVal)
  | goSet (l : List GoVal)
  | goNil

/-- Go type assertion `v.(string)`: panics (`none`) unless the dynamic type is `string`. -/
def asString : GoVal → Option String
  | .goStr s => some s
  | _ => none

/-- Go type assertion `v.(bool)`. -/
def asBool : GoVal → Option Bool
  | .goBool b => some b
  | _ => none

/-- Go type assertion `v.(int)`. -/
def asInt : GoVal → Option Int
  | .goInt n => some n
  | _ => none

/-- Go type assertion `v.(*int)`: succeeds only when the stored dynamic
type really is `*int` — an `int` value does not satisfy it. -/
def asPtrInt : GoVal → Option (Option Int)
  | .goPtrInt p => some p
  | _ => none

/-- Go type assertion `v.([]interface\x7b\x7d)`. -/
def asList : GoVal → Option (List GoVal)
  | .goList l => some l
  | _ => none

/-- Go type assertion `v.(map[string]interface\x7b\x7d)`. -/
def asMap : GoVal → Option (String → GoVal)
  | .goMap m => some m
  | _ => none

/-- Go type assertion `v.(*schema.Set)`, together with `.List()`. -/
def asSet : GoVal → Option (List GoVal)
  | .goSet l => some l
  | _ => none

/-- Whether a stored value is the nil interface (`v != nil` checks in the source). -/
def isGoNil : GoVal → Bool
  | .goNil => true
  | _ => false

/-- The `storage` block of the apt proxy schema
(`blob_store_name : string`, `strict_content_type_validation : bool`).
Note the schema declares no `write_policy` key. -/
structure StorageData where
  blob_store_name : String
  strict_content_type_validation : Bool
deriving DecidableEq

/-- SDK storage of a `storage` element: a map holding exactly the schema keys. -/
def StorageData.go (c : StorageData) : String → GoVal := fun k =>
  if k = "blob_store_name" then .goStr c.blob_store_name
  else if k = "strict_content_type_validation" then .goBool c.strict_content_type_validation
  else .goNil

/-- The `cleanup` block (`policy_names : set of string`). -/
structure CleanupData where
  policy_names : List String
deriving DecidableEq

/-- SDK storage of a `cleanup` element; `policy_names` is a `*schema.Set` of strings. -/
def CleanupData.go (c : CleanupData) : String → GoVal := fun k =>
  if k = "policy_names" then .goSet (c.policy_names.map .goStr)
  else .goNil

/-- The `apt` block (`distribution : string`, `flat : bool`). -/
structure AptData where
  distribution : String
  flat : Bool
deriving DecidableEq

/-- SDK storage of an `apt` element. -/
def AptData.go (c : AptData) : String → GoVal := fun k =>
  if k = "distribution" then .goStr c.distribution
  else if k = "flat" then .goBool c.flat
  else .goNil

/-- The `http_client.connection` block; per the schema, `retries` and
`timeout` are `TypeInt`, `user_agent_suffix` is a string and the rest are
bools. -/
structure ConnectionData where
  retries : Int
  user_agent_suffix : String
  timeout : Int
  enable_circular_redirects : Bool
  enable_cookies : Bool
  use_trust_store : Bool
deriving DecidableEq

/-- SDK storage of a `connection` element: `TypeInt` fields are stored as
Go `int` values (not `*int`). -/
def ConnectionData.go (c : ConnectionData) : String → GoVal := fun k =>
  if k = "retries" then .goInt c.retries
  else if k = "user_agent_suffix" then .goStr c.user_agent_suffix
  else if k = "timeout" then .goInt c.timeout
  else if k = "enable_circular_redirects" then .goBool c.enable_circular_redirects
  else if k = "enable_cookies" then .goBool c.enable_cookies
  else if k = "use_trust_store" then .goBool c.use_trust_store
  else .goNil

/-- The `http_client.authentication` block (five string fields). -/
structure AuthData where
  type : String
  username : String
  password : String
  ntlm_host : String
  ntlm_domain : String
deriving DecidableEq

/-- SDK storage of an `authentication` element. -/
def AuthData.go (c : AuthData) : String → GoVal := fun k =>
  if k = "type" then .goStr c.type
  else if k = "username" then .goStr c.username
  else if k = "password" then .goStr c.password
  else if k = "ntlm_host" then .goStr c.ntlm_host
  else if k = "ntlm_domain" then .goStr c.ntlm_domain
  else .goNil

/-- A list element of a nested block: `none` is a nil element of the
`[]interface\x7b\x7d` slice, `some c` a populated configuration map. -/
def optElem {α : Type} (goFn : α → String → GoVal) : Option α → GoVal
  | some c => .goMap (goFn c)
  | none => .goNil

/-- The `http_client` block: `blocked`/`auto_block` bools plus the
`connection` and `authentication` nested one-element lists. -/
structure HttpClientData where
  blocked : Bool
  auto_block : Bool
  connection : List (Option ConnectionData)
  authentication : List (Option AuthData)
deriving DecidableEq

/-- SDK storage of an `http_client` element. -/
def HttpClientData.go (c : HttpClientData) : String → GoVal := fun k =>
  if k = "blocked" then .goBool c.blocked
  else if k = "auto_block" then .goBool c.auto_block
  else if k = "connection" then .goList (c.connection.map (optElem ConnectionData.go))
  else if k = "authentication" then .goList (c.authentication.map (optElem AuthData.go))
  else .goNil

/-- The `negative_cache` block (`enabled : bool`, `ttl : int`). -/
structure NegativeCacheData where
  enabled : Bool
  ttl : Int
deriving DecidableEq

/-- SDK storage of a `negative_cache` element. -/
def NegativeCacheData.go (c : NegativeCacheData) : String → GoVal := fun k =>
  if k = "enabled" then .goBool c.enabled
  else if k = "ttl" then .goInt c.ttl
  else .goNil

/-- The `proxy` block (`content_max_age`, `metadata_max_age`, `remote_url`). -/
structure ProxyData where
  content_max_age : Int
  metadata_max_age : Int
  remote_url : String
deriving DecidableEq

/-- SDK storage of a `proxy` element. -/
def ProxyData.go (c : ProxyData) : String → GoVal := fun k =>
  if k = "content_max_age" then .goInt c.content_max_age
  else if k = "metadata_max_age" then .goInt c.metadata_max_age
  else if k = "remote_url" then .goStr c.remote_url
  else .goNil

/-- Terraform resource data for the apt proxy resource: the id plus one
field per key of the schema declared in `resourceRepositoryAptProxy`.
Block-typed keys are `MaxItems: 1` lists, modelled as `Option`. -/
structure ResourceData where
  rid : String
  name : String
  online : Bool
  storage : Option StorageData
  cleanup : Option CleanupData
  http_client : Option HttpClientData
  negative_cache : Option NegativeCacheData
  proxy : Option ProxyData
  routing_rule : String
  apt : Option AptData
deriving DecidableEq

/-- The SDK representation of a (possibly absent) one-element block list. -/
def optBlock {α : Type} (goFn : α → String → GoVal) : Option α → GoVal
  | some c => .goList [.goMap (goFn c)]
  | none => .goList []

/-- `d.Get(key)`: the dynamically typed value the SDK stores for a schema
key.  A key absent from the schema (such as `group`) yields no value. -/
def ResourceData.get (d : ResourceData) : String → GoVal := fun k =>
  if k = "name" then .goStr d.name
  else if k = "online" then .goBool d.online
  else if k = "storage" then optBlock StorageData.go d.storage
  else if k = "cleanup" then optBlock CleanupData.go d.cleanup
  else if k = "http_client" then optBlock HttpClientData.go d.http_client
  else if k = "negative_cache" then optBlock NegativeCacheData.go d.negative_cache
  else if k = "proxy" then optBlock ProxyData.go d.proxy
  else if k = "routing_rule" then .goStr d.routing_rule
  else if k = "apt" then optBlock AptData.go d.apt
  else .goNil

/-- Go truthiness used by `d.GetOk`: the value exists and is non-zero
(a list is non-empty, a bool is true, ...). -/
def goTruthy : GoVal → Bool
  | .goStr s => !(s = "")
  | .goBool b => b
  | .goInt n => !(n = 0)
  | .goPtrInt p => p.isSome
  | .goList l => !l.isEmpty
  | .goMap _ => true
  | .goSet l => !l.isEmpty
  | .goNil => false

/-- `d.GetOk(key)`: whether the key holds a non-zero value. -/
def ResourceData.getOk (d : ResourceData) (k : String) : Bool :=
  goTruthy (d.get k)

/-! ## The go-nexus-client domain structures used by the source file -/

/-- `nexus.RepositoryTypeHosted`. -/
def RepositoryTypeHosted : String := "hosted"

/-- `nexus.RepositoryApt`. -/
structure RepositoryApt where
  Distribution : String
  Flat : Bool
deriving DecidableEq

/-- `nexus.RepositoryCleanup`. -/
structure RepositoryCleanup where
  PolicyNames : List String
deriving DecidableEq

/-- `nexus.RepositoryGroup`. -/
structure RepositoryGroup where
  MemberNames : List String
deriving DecidableEq

/-- `nexus.RepositoryHTTPClientAuthentication`. -/
structure RepositoryHTTPClientAuthentication where
  NTLMDomain : String
  NTLMHost : String
  AuthType : String
  Username : String
  Password : String
deriving DecidableEq

/-- `nexus.RepositoryHTTPClientConnection` (the `Retries` and `Timeout`
fields populated by the source are `*int`; a `none` is a nil pointer). -/
structure RepositoryHTTPClientConnection where
  Retries : Option Int
  Timeout : Option Int
deriving DecidableEq

/-- `nexus.RepositoryHTTPClient`. -/
structure RepositoryHTTPClient where
  AutoBlock : Bool
  Blocked : Bool
  Authentication : Option RepositoryHTTPClientAuthentication
  Connection : Option RepositoryHTTPClientConnection
deriving DecidableEq

/-- `nexus.RepositoryNegativeCache`. -/
structure RepositoryNegativeCache where
  Enabled : Bool
  TTL : Int
deriving DecidableEq

/-- `nexus.RepositoryProxy`. -/
structure RepositoryProxy where
  ContentMaxAge : Int
  MetadataMaxAge : Int
  RemoteURL : String
deriving DecidableEq

/-- `nexus.RepositoryStorage`. -/
structure RepositoryStorage where
  BlobStoreName : String
  StrictContentTypeValidation : Bool
  WritePolicy : Option String
deriving DecidableEq

/-- `nexus.Repository`, restricted to the fields the source file reads or
writes (`RepoType` stands for the Go field `Type`). -/
structure Repository where
  Format : String
  Name : String
  Online : Bool
  RepoType : String
  RepositoryApt : Option RepositoryApt
  RepositoryCleanup : Option RepositoryCleanup
  RepositoryGroup : Option RepositoryGroup
  RepositoryHTTPClient : Option RepositoryHTTPClient
  RepositoryNegativeCache : Option RepositoryNegativeCache
  RepositoryProxy : Option RepositoryProxy
  RepositoryStorage : Option RepositoryStorage
deriving DecidableEq

/-! ## The marshaling function `getRepositoryAptProxyFromResourceData`

The function is the source's sequence of `if _, ok := d.GetOk(...)`
blocks; each block is one step below, in source order.  A step returns
`none` exactly when the Go code would panic (a failed type assertion or
an out-of-range index). -/

/-- Modelled from the spec: the helper `interfaceSliceToStringSlice` used
by the marshaling core is not under `src/`; per its use on
`policy_names`, it converts a `[]interface\x7b\x7d` to `[]string` by
asserting each element to `string`. -/
def interfaceSliceToStringSlice : List GoVal → Option (List String)
  | [] => some []
  | v :: rest =>
    (asString v).bind fun s =>
    (interfaceSliceToStringSlice rest).map fun ss => s :: ss

/-- The `if _, ok := d.GetOk("apt")` block. -/
def aptStep (d : ResourceData) (repo : Repository) : Option Repository :=
  if d.getOk "apt" then
    (asList (d.get "apt")).bind fun aptList =>
    aptList.head?.bind fun apt0 =>
    (asMap apt0).bind fun aptConfig =>
    (asString (aptConfig "distribution")).bind fun dist =>
    (asBool (aptConfig "flat")).map fun flat =>
      { repo with RepositoryApt := some { Distribution := dist, Flat := flat } }
  else some repo

/-- The `if _, ok := d.GetOk("cleanup")` block. -/
def cleanupStep (d : ResourceData) (repo : Repository) : Option Repository :=
  if d.getOk "cleanup" then
    (asList (d.get "cleanup")).bind fun cleanupList =>
    cleanupList.head?.bind fun cl0 =>
    (asMap cl0).bind fun cleanupConfig =>
    (asSet (cleanupConfig "policy_names")).bind fun policyVals =>
    (interfaceSliceToStringSlice policyVals).map fun names =>
      { repo with RepositoryCleanup := some { PolicyNames := names } }
  else some repo

/-- The `if _, ok := d.GetOk("group")` block.  The apt proxy schema
declares no `group` key, so `d.GetOk("group")` reports no value; the
block is transcribed nonetheless. -/
def groupStep (d : ResourceData) (repo : Repository) : Option Repository :=
  if d.getOk "group" then
    (asList (d.get "group")).bind fun groupList =>
    (if groupList.length = 1 ∧ ¬ isGoNil (groupList.headD .goNil) then
      groupList.head?.bind fun g0 =>
      (asMap g0).bind fun groupConfig =>
      (asSet (groupConfig "member_names")).bind fun memberVals =>
      memberVals.mapM asString
    else some []).map fun memberNames =>
      { repo with RepositoryGroup := some { MemberNames := memberNames } }
  else some repo

/-- The body of the `authentication` sub-block of the `http_client` block. -/
def authPart (httpClientConfig : String → GoVal) (client : RepositoryHTTPClient) :
    Option RepositoryHTTPClient :=
  (asList (httpClientConfig "authentication")).bind fun authList =>
  match authList with
  | [auth0] =>
    if isGoNil auth0 then some client
    else
      (asMap auth0).bind fun authConfig =>
      (asString (authConfig "ntlm_domain")).bind fun ntlmDomain =>
      (asString (authConfig "ntlm_host")).bind fun ntlmHost =>
      (asString (authConfig "type")).bind fun ty =>
      (asString (authConfig "username")).bind fun username =>
      (asString (authConfig "password")).map fun password =>
        { client with Authentication := some {
            NTLMDomain := ntlmDomain, NTLMHost := ntlmHost, AuthType := ty,
            Username := username, Password := password } }
  | _ => some client

/-- The body of the `connection` sub-block of the `http_client` block:
`retries` and `timeout` are read through `.(*int)` type assertions. -/
def connectionPart (httpClientConfig : String → GoVal) (client : RepositoryHTTPClient) :
    Option RepositoryHTTPClient :=
  (asList (httpClientConfig "connection")).bind fun connList =>
  match connList with
  | [conn0] =>
    if isGoNil conn0 then some client
    else
      (asMap conn0).bind fun connConfig =>
      (asPtrInt (connConfig "retries")).bind fun retries =>
      (asPtrInt (connConfig "timeout")).map fun timeout =>
        { client with Connection := some { Retries := retries, Timeout := timeout } }
  | _ => some client

/-- The `if _, ok := d.GetOk("http_client")` block. -/
def httpClientStep (d : ResourceData) (repo : Repository) : Option Repository :=
  if d.getOk "http_client" then
    (asList (d.get "http_client")).bind fun httpClientList =>
    httpClientList.head?.bind fun hc0 =>
    (asMap hc0).bind fun httpClientConfig =>
    (asBool (httpClientConfig "auto_block")).bind fun autoBlock =>
    (asBool (httpClientConfig "blocked")).bind fun blocked =>
    (authPart httpClientConfig
      { AutoBlock := autoBlock, Blocked := blocked,
        Authentication := none, Connection := none }).bind fun client1 =>
    (connectionPart httpClientConfig client1).map fun client2 =>
      { repo with RepositoryHTTPClient := some client2 }
  else some repo

/-- The `if _, ok := d.GetOk("negative_cache")` block. -/
def negativeCacheStep (d : ResourceData) (repo : Repository) : Option Repository :=
  if d.getOk "negative_cache" then
    (asList (d.get "negative_cache")).bind fun ncList =>
    ncList.head?.bind fun nc0 =>
    (asMap nc0).bind fun ncConfig =>
    (asBool (ncConfig "enabled")).bind fun enabled =>
    (asInt (ncConfig "ttl")).map fun ttl =>
      { repo with RepositoryNegativeCache := some { Enabled := enabled, TTL := ttl } }
  else some repo

/-- The `if _, ok := d.GetOk("proxy")` block. -/
def proxyStep (d : ResourceData) (repo : Repository) : Option Repository :=
  if d.getOk "proxy" then
    (asList (d.get "proxy")).bind fun proxyList =>
    proxyList.head?.bind fun p0 =>
    (asMap p0).bind fun proxyConfig =>
    (asInt (proxyConfig "content_max_age")).bind fun contentMaxAge =>
    (asInt (proxyConfig "metadata_max_age")).bind fun metadataMaxAge =>
    (asString (proxyConfig "remote_url")).map fun remoteURL =>
      { repo with RepositoryProxy := some {
          ContentMaxAge := contentMaxAge, MetadataMaxAge := metadataMaxAge,
          RemoteURL := remoteURL } }
  else some repo

/-- The `if _, ok := d.GetOk("storage")` block, with the hosted-only
`write_policy` branch. -/
def storageStep (d : ResourceData) (repo : Repository) : Option Repository :=
  if d.getOk "storage" then
    (asList (d.get "storage")).bind fun storageList =>
    storageList.head?.bind fun s0 =>
    (asMap s0).bind fun storageConfig =>
    (asString (storageConfig "blob_store_name")).bind fun blobStoreName =>
    (asBool (storageConfig "strict_content_type_validation")).bind fun strict =>
    if repo.RepoType = RepositoryTypeHosted then
      (asString (storageConfig "write_policy")).map fun writePolicy =>
        { repo with RepositoryStorage := some {
            BlobStoreName := blobStoreName, StrictContentTypeValidation := strict,
            WritePolicy := some writePolicy } }
    else
      some { repo with RepositoryStorage := some {
          BlobStoreName := blobStoreName, StrictContentTypeValidation := strict,
          WritePolicy := none } }
  else some repo

/-- The seven conditional blocks of the marshaling core, in source order. -/
def aptProxySteps (d : ResourceData) (repo : Repository) : Option Repository :=
  (aptStep d repo).bind fun r1 =>
  (cleanupStep d r1).bind fun r2 =>
  (groupStep d r2).bind fun r3 =>
  (httpClientStep d r3).bind fun r4 =>
  (negativeCacheStep d r4).bind fun r5 =>
  (proxyStep d r5).bind fun r6 =>
  storageStep d r6

/-- `getRepositoryAptProxyFromResourceData`: builds the base `Repository`
with hard-coded `Format = "apt"` and `Type = "proxy"` and runs the seven
blocks.  `none` is a Go panic. -/
def getRepositoryAptProxyFromResourceData (d : ResourceData) : Option Repository :=
  (asString (d.get "name")).bind fun name =>
  (asBool (d.get "online")).bind fun online =>
  aptProxySteps d
    { Format := "apt", Name := name, Online := online, RepoType := "proxy",
      RepositoryApt := none, RepositoryCleanup := none, RepositoryGroup := none,
      RepositoryHTTPClient := none, RepositoryNegativeCache := none,
      RepositoryProxy := none, RepositoryStorage := none }

/-! ## Characterization of the marshaling function -/

/-- Whether the marshaling core panics on `d`: it does exactly when an
`http_client` block carries a one-element, non-nil `connection` list,
whose `retries`/`timeout` values (stored as Go `int`) fail the `.(*int)`
type assertions. -/
def connectionPanics (d : ResourceData) : Bool :=
  match d.http_client with
  | some hc =>
    match hc.connection with
    | [some _] => true
    | _ => false
  | none => false

/-- The domain translation of an `authentication` element. -/
def authToDomain (a : AuthData) : RepositoryHTTPClientAuthentication :=
  ⟨a.ntlm_domain, a.ntlm_host, a.type, a.username, a.password⟩

/-- The domain translation of the `authentication` one-element list:
populated only by a single non-nil element. -/
def authListToDomain : List (Option AuthData) → Option RepositoryHTTPClientAuthentication
  | [some a] => some (authToDomain a)
  | _ => none

/-- The domain translation of an `http_client` element, as the marshaling
core produces it on its non-panicking paths: `Connection` is never
populated. -/
def httpClientToDomain (hc : HttpClientData) : RepositoryHTTPClient :=
  ⟨hc.auto_block, hc.blocked, authListToDomain hc.authentication, none⟩

/-- The `Repository` value the marshaling core produces when it does not
panic: `Format`/`Type` are the constants `"apt"`/`"proxy"`; each present
block is translated field by field; `routing_rule` does not occur;
`Connection` is never populated (a present connection sub-block panics
instead); `WritePolicy` and the group block are never populated. -/
def expectedAptProxyRepository (d : ResourceData) : Repository where
  Format := "apt"
  Name := d.name
  Online := d.online
  RepoType := "proxy"
  RepositoryApt := d.apt.map fun a => ⟨a.distribution, a.flat⟩
  RepositoryCleanup := d.cleanup.map fun c => ⟨c.policy_names⟩
  RepositoryGroup := none
  RepositoryHTTPClient := d.http_client.map httpClientToDomain
  RepositoryNegativeCache := d.negative_cache.map fun n => ⟨n.enabled, n.ttl⟩
  RepositoryProxy := d.proxy.map fun p =>
    ⟨p.content_max_age, p.metadata_max_age, p.remote_url⟩
  RepositoryStorage := d.storage.map fun s =>
    ⟨s.blob_store_name, s.strict_content_type_validation, none⟩

/-! ## The external client, and the CRUD handlers -/

/-- The `nexus.Client` methods used by the source file.  Errors are
opaque values, modelled as strings; `RepositoryRead` returns a pair of a
possibly-nil repository and a possibly-nil error, as in Go. -/
structure Client where
  RepositoryCreate : Repository → Option String
  RepositoryRead : String → Option Repository × Option String
  RepositoryUpdate : String → Repository → Option String
  RepositoryDelete : String → Option String

/-- One request issued to the external client library. -/
inductive ClientCall where
  | createCall (repo : Repository)
  | readCall (id : String)
  | updateCall (id : String) (repo : Repository)
  | deleteCall (id : String)
deriving DecidableEq

/-- Outcome of a handler: the final resource data and the returned error,
or a Go panic. -/
inductive HandlerResult (α : Type) where
  | ok (val : α)
  | panicked
deriving DecidableEq

/-- Modelled from the spec: `setRepositoryToResourceData` is not under
`src/`; per the spec it is the inverse marshaling function, translating
the strongly-typed `Repository` back into the schema fields of the
resource data, and it records the repository name as the resource id.
Writing back its own already-marshaled structure reports no error. -/
def setRepositoryToResourceData (repo : Repository) (d : ResourceData) :
    ResourceData × Option String :=
  ({ d with
      rid := repo.Name,
      name := repo.Name,
      online := repo.Online,
      storage := repo.RepositoryStorage.map fun s =>
        ⟨s.BlobStoreName, s.StrictContentTypeValidation⟩,
      cleanup := repo.RepositoryCleanup.map fun c => ⟨c.PolicyNames⟩,
      http_client := repo.RepositoryHTTPClient.map fun hc =>
        ⟨hc.Blocked, hc.AutoBlock,
          (match hc.Connection with
            | some c => [some ⟨c.Retries.getD 0, "", c.Timeout.getD 0, false, false, false⟩]
            | none => []),
          (match hc.Authentication with
            | some a => [some ⟨a.AuthType, a.Username, a.Password, a.NTLMHost, a.NTLMDomain⟩]
            | none => [])⟩,
      negative_cache := repo.RepositoryNegativeCache.map fun n => ⟨n.Enabled, n.TTL⟩,
      proxy := repo.RepositoryProxy.map fun p =>
        ⟨p.ContentMaxAge, p.MetadataMaxAge, p.RemoteURL⟩,
      apt := repo.RepositoryApt.map fun a => ⟨a.Distribution, a.Flat⟩ },
   none)

/-- `resourceRepositoryAptProxyRead`: one client read; a non-nil error is
returned as is; a nil repository with nil error clears the id; otherwise
the repository is written back. -/
def resourceRepositoryAptProxyRead (c : Client) (d : ResourceData) :
    HandlerResult (ResourceData × Option String) × List ClientCall :=
  let res := c.RepositoryRead d.rid
  match res.2 with
  | some e => (.ok (d, some e), [.readCall d.rid])
  | none =>
    match res.1 with
    | none => (.ok ({ d with rid := "" }, none), [.readCall d.rid])
    | some repo =>
      let (d1, err) := setRepositoryToResourceData repo d
      (.ok (d1, err), [.readCall d.rid])

/-- Modelled from the spec: `resourceRepositoryRead`, the generic
repository Read handler delegated to by the apt proxy Update handler, is
not under `src/`; per the spec it is the same single-read CRUD shim as
the apt proxy Read handler. -/
def resourceRepositoryRead (c : Client) (d : ResourceData) :
    HandlerResult (ResourceData × Option String) × List ClientCall :=
  resourceRepositoryAptProxyRead c d

/-- `resourceRepositoryAptProxyCreate`: marshal, one client create, write
back, then delegate to the Read handler. -/
def resourceRepositoryAptProxyCreate (c : Client) (d : ResourceData) :
    HandlerResult (ResourceData × Option String) × List ClientCall :=
  match getRepositoryAptProxyFromResourceData d with
  | none => (.panicked, [])
  | some repo =>
    match c.RepositoryCreate repo with
    | some e => (.ok (d, some e), [.createCall repo])
    | none =>
      let (d1, err) := setRepositoryToResourceData repo d
      match err with
      | some e => (.ok (d1, some e), [.createCall repo])
      | none =>
        let (res, calls) := resourceRepositoryAptProxyRead c d1
        (res, .createCall repo :: calls)

/-- `resourceRepositoryAptProxyUpdate`: marshal, one client update keyed
by the current id, write back, then delegate to the generic Read handler. -/
def resourceRepositoryAptProxyUpdate (c : Client) (d : ResourceData) :
    HandlerResult (ResourceData × Option String) × List ClientCall :=
  let repoName := d.rid
  match getRepositoryAptProxyFromResourceData d with
  | none => (.panicked, [])
  | some repo =>
    match c.RepositoryUpdate repoName repo with
    | some e => (.ok (d, some e), [.updateCall repoName repo])
    | none =>
      let (d1, err) := setRepositoryToResourceData repo d
      match err with
      | some e => (.ok (d1, some e), [.updateCall repoName repo])
      | none =>
        let (res, calls) := resourceRepositoryRead c d1
        (res, .updateCall repoName repo :: calls)

/-- `resourceRepositoryAptProxyDelete`: one client delete; the client's
error is the handler's return value. -/
def resourceRepositoryAptProxyDelete (c : Client) (d : ResourceData) :
    HandlerResult (ResourceData × Option String) × List ClientCall :=
  (.ok (d, c.RepositoryDelete d.rid), [.deleteCall d.rid])

/-- `resourceRepositoryAptProxyExists`: one client read; returns
`repo != nil` alongside the client's error. -/
def resourceRepositoryAptProxyExists (c : Client) (d : ResourceData) :
    (Bool × Option String) × List ClientCall :=
  let res := c.RepositoryRead d.rid
  ((res.1.isSome, res.2), [.readCall d.rid])

/-! ## The second embedded variant of the apt proxy resource

The source file contains a second copy of the resource whose schema adds
`format` and `type` keys (defaulting to `"apt"` and `"proxy"`) and whose
Create/Update handlers marshal through the generic
`getRepositoryFromResourceData` instead of the apt-specific function. -/

/-- Resource data for the second variant: the first variant's fields plus
the `format` and `type` schema keys. -/
structure ResourceData2 where
  rid : String
  format : String
  type : String
  name : String
  online : Bool
  storage : Option StorageData
  cleanup : Option CleanupData
  http_client : Option HttpClientData
  negative_cache : Option NegativeCacheData
  proxy : Option ProxyData
  routing_rule : String
  apt : Option AptData
deriving DecidableEq

/-- Forgetting the `format` and `type` fields maps the second variant's
resource data onto the first variant's. -/
def projectAptProxy (d : ResourceData2) : ResourceData :=
  ⟨d.rid, d.name, d.online, d.storage, d.cleanup, d.http_client,
    d.negative_cache, d.proxy, d.routing_rule, d.apt⟩

/-- Modelled from the spec: `getRepositoryFromResourceData`, the generic
marshaling function of the repeated marshaling core, is not under `src/`;
per the spec it performs the same block marshaling as the apt-specific
function, with `Format` and `Type` read from the resource data's `format`
and `type` keys instead of being hard-coded. -/
def getRepositoryFromResourceData (d2 : ResourceData2) : Option Repository :=
  let d := projectAptProxy d2
  (asString (d.get "name")).bind fun name =>
  (asBool (d.get "online")).bind fun online =>
  aptProxySteps d
    { Format := d2.format, Name := name, Online := online, RepoType := d2.type,
      RepositoryApt := none, RepositoryCleanup := none, RepositoryGroup := none,
      RepositoryHTTPClient := none, RepositoryNegativeCache := none,
      RepositoryProxy := none, RepositoryStorage := none }

/-- Modelled from the spec: the write-back of a `Repository` into the
second variant's resource data also covers its `format` and `type` keys. -/
def setRepositoryToResourceData2 (repo : Repository) (d : ResourceData2) :
    ResourceData2 × Option String :=
  ({ d with
      rid := repo.Name,
      format := repo.Format,
      type := repo.RepoType,
      name := repo.Name,
      online := repo.Online,
      storage := repo.RepositoryStorage.map fun s =>
        ⟨s.BlobStoreName, s.StrictContentTypeValidation⟩,
      cleanup := repo.RepositoryCleanup.map fun c => ⟨c.PolicyNames⟩,
      http_client := repo.RepositoryHTTPClient.map fun hc =>
        ⟨hc.Blocked, hc.AutoBlock,
          (match hc.Connection with
            | some c => [some ⟨c.Retries.getD 0, "", c.Timeout.getD 0, false, false, false⟩]
            | none => []),
          (match hc.Authentication with
            | some a => [some ⟨a.AuthType, a.Username, a.Password, a.NTLMHost, a.NTLMDomain⟩]
            | none => [])⟩,
      negative_cache := repo.RepositoryNegativeCache.map fun n => ⟨n.Enabled, n.TTL⟩,
      proxy := repo.RepositoryProxy.map fun p =>
        ⟨p.ContentMaxAge, p.MetadataMaxAge, p.RemoteURL⟩,
      apt := repo.RepositoryApt.map fun a => ⟨a.Distribution, a.Flat⟩ },
   none)

/-- The second variant's `resourceRepositoryAptProxyRead`: identical body
to the first variant's, acting on the extended resource data. -/
def resourceRepositoryAptProxyRead2 (c : Client) (d : ResourceData2) :
    HandlerResult (ResourceData2 × Option String) × List ClientCall :=
  let res := c.RepositoryRead d.rid
  match res.2 with
  | some e => (.ok (d, some e), [.readCall d.rid])
  | none =>
    match res.1 with
    | none => (.ok ({ d with rid := "" }, none), [.readCall d.rid])
    | some repo =>
      let (d1, err) := setRepositoryToResourceData2 repo d
      (.ok (d1, err), [.readCall d.rid])

/-- The second variant's `resourceRepositoryAptProxyCreate`: as the first
variant's, but marshaling through `getRepositoryFromResourceData`. -/
def resourceRepositoryAptProxyCreate2 (c : Client) (d : ResourceData2) :
    HandlerResult (ResourceData2 × Option String) × List ClientCall :=
  match getRepositoryFromResourceData d with
  | none => (.panicked, [])
  | some repo =>
    match c.RepositoryCreate repo with
    | some e => (.ok (d, some e), [.createCall repo])
    | none =>
      let (d1, err) := setRepositoryToResourceData2 repo d
      match err with
      | some e => (.ok (d1, some e), [.createCall repo])
      | none =>
        let (res, calls) := resourceRepositoryAptProxyRead2 c d1
        (res, .createCall repo :: calls)

/-- Transport of a handler outcome along a map of resource-data types. -/
def mapHandlerOutcome {α β : Type} (f : α → β) :
    HandlerResult (α × Option String) → HandlerResult (β × Option String)
  | .ok (a, e) => .ok (f a, e)
  | .panicked => .panicked

/-- Transport of a handler outcome together with its client-call trace. -/
def mapHandlerResult {α β : Type} (f : α → β)
    (r : HandlerResult (α × Option String) × List ClientCall) :
    HandlerResult (β × Option String) × List ClientCall :=
  (mapHandlerOutcome f r.1, r.2)

/-! ## Round-trip composition and concrete sample data -/

/-- The marshal-then-write-back pipeline exercised by the Create and
Update handlers: `none` when the marshaling panics. -/
def aptProxyRoundTrip (d : ResourceData) : Option ResourceData :=
  (getRepositoryAptProxyFromResourceData d).map fun repo =>
    (setRepositoryToResourceData repo d).1

/-- Resource data on which the round trip is lossless: no connection
sub-block (a present one panics), and no nil element standing in the
authentication list. -/
def roundTripSafe (d : ResourceData) : Bool :=
  match d.http_client with
  | none => true
  | some hc =>
    hc.connection.isEmpty &&
      (match hc.authentication with
        | [] => true
        | [some _] => true
        | _ => false)

/-- A populated `storage` block. -/
def sampleStorage : StorageData := ⟨"default", true⟩

/-- A populated `cleanup` block. -/
def sampleCleanup : CleanupData := ⟨["policy-a", "policy-b"]⟩

/-- A populated `proxy` block. -/
def sampleProxy : ProxyData := ⟨1440, 1440, "https://remote.repository.com"⟩

/-- A populated `negative_cache` block. -/
def sampleNegativeCache : NegativeCacheData := ⟨true, 1440⟩

/-- A populated `authentication` sub-block. -/
def sampleAuth : AuthData := ⟨"username", "user", "secret", "nhost", "ndomain"⟩

/-- A populated `connection` sub-block (`retries = 0`, `timeout = 60`). -/
def sampleConnection : ConnectionData := ⟨0, "agent", 60, false, false, false⟩

/-- A populated `http_client` block without a connection sub-block. -/
def sampleHttpClient : HttpClientData := ⟨false, true, [], [some sampleAuth]⟩

/-- A fully populated apt proxy configuration without a connection
sub-block. -/
def sampleData : ResourceData :=
  ⟨"apt-proxy", "apt-proxy", true, some sampleStorage, some sampleCleanup,
    some sampleHttpClient, some sampleNegativeCache, some sampleProxy,
    "rule-a", some ⟨"bionic", false⟩⟩

/-- `sampleData` with a populated connection sub-block, as in the usage
example at the head of the source file. -/
def sampleDataConn : ResourceData :=
  { sampleData with
      http_client := some { sampleHttpClient with connection := [some sampleConnection] } }

/-- Second-variant resource data agreeing with `sampleData` and holding
the schema defaults `format = "apt"`, `type = "proxy"`. -/
def sampleData2 : ResourceData2 :=
  ⟨"apt-proxy", "apt", "proxy", "apt-proxy", true, some sampleStorage,
    some sampleCleanup, some sampleHttpClient, some sampleNegativeCache,
    some sampleProxy, "rule-a", some ⟨"bionic", false⟩⟩

/-- `sampleData2` with the non-default `format = "yum"` (a legal value of
the second variant's `format` key). -/
def sampleData2Yum : ResourceData2 := { sampleData2 with format := "yum" }

/-- A client on which every request succeeds and reads find no
repository. -/
def clientOk : Client :=
  ⟨fun _ => none, fun _ => (none, none), fun _ _ => none, fun _ => none⟩

/-- A client on which every request fails with the error `"boom"`. -/
def clientFail : Client :=
  ⟨fun _ => some "boom", fun _ => (none, some "boom"),
    fun _ _ => some "boom", fun _ => some "boom"⟩

/-! ## Step lemmas and the characterization of the marshaling core -/

theorem aptStep_eq (d : ResourceData) (repo : Repository) :
    aptStep d repo = some (match d.apt with
      | some a => { repo with RepositoryApt := some ⟨a.distribution, a.flat⟩ }
      | none => repo) := by
  cases h : d.apt <;>
    simp [aptStep, ResourceData.getOk, ResourceData.get, optBlock, goTruthy,
      asList, asMap, asString, asBool, AptData.go, h]

theorem cleanupStep_eq (d : ResourceData) (repo : Repository) :
    cleanupStep d repo = some (match d.cleanup with
      | some c => { repo with RepositoryCleanup := some ⟨c.policy_names⟩ }
      | none => repo) := by
  cases h : d.cleanup with
  | none =>
    simp [cleanupStep, ResourceData.getOk, ResourceData.get, optBlock, goTruthy, h]
  | some c =>
    have hm : interfaceSliceToStringSlice (c.policy_names.map GoVal.goStr) =
        some c.policy_names := by
      induction c.policy_names with
      | nil => simp [interfaceSliceToStringSlice]
      | cons x xs ih => simp [interfaceSliceToStringSlice, asString, ih]
    simp [cleanupStep, ResourceData.getOk, ResourceData.get, optBlock, goTruthy,
      asList, asMap, asSet, CleanupData.go, h, hm]

theorem groupStep_eq (d : ResourceData) (repo : Repository) :
    groupStep d repo = some repo := by
  simp [groupStep, ResourceData.getOk, ResourceData.get, goTruthy]

theorem authPart_eq (hc : HttpClientData) (client : RepositoryHTTPClient) :
    authPart hc.go client =
      some { client with Authentication := (authListToDomain hc.authentication).elim client.Authentication some } := by
  obtain ⟨blocked, auto_block, conn, auth⟩ := hc
  match auth with
  | [] => simp [authPart, HttpClientData.go, asList, authListToDomain]
  | [none] => simp [authPart, HttpClientData.go, asList, optElem, isGoNil, authListToDomain]
  | [some a] =>
    simp [authPart, HttpClientData.go, asList, optElem, isGoNil, asMap,
      asString, AuthData.go, authListToDomain, authToDomain]
  | x :: y :: rest => simp [authPart, HttpClientData.go, asList, authListToDomain]

theorem connectionPart_eq (hc : HttpClientData) (client : RepositoryHTTPClient) :
    connectionPart hc.go client =
      (match hc.connection with
        | [some _] => none
        | _ => some client) := by
  obtain ⟨blocked, auto_block, conn, auth⟩ := hc
  match conn with
  | [] => simp [connectionPart, HttpClientData.go, asList]
  | [none] => simp [connectionPart, HttpClientData.go, asList, optElem, isGoNil]
  | [some c] =>
    simp [connectionPart, HttpClientData.go, asList, optElem, isGoNil, asMap,
      asPtrInt, ConnectionData.go]
  | x :: y :: rest => simp [connectionPart, HttpClientData.go, asList]

theorem httpClientStep_eq (d : ResourceData) (repo : Repository) :
    httpClientStep d repo =
      if connectionPanics d then none
      else some (match d.http_client with
        | some hc => { repo with RepositoryHTTPClient := some (httpClientToDomain hc) }
        | none => repo) := by
  cases h : d.http_client with
  | none =>
    simp [httpClientStep, connectionPanics, ResourceData.getOk, ResourceData.get,
      optBlock, goTruthy, h]
  | some hc =>
    have hgo : asMap (optElem HttpClientData.go (some hc)) = some hc.go := rfl
    have hstep : httpClientStep d repo =
        (authPart hc.go ⟨hc.auto_block, hc.blocked, none, none⟩).bind fun client1 =>
        (connectionPart hc.go client1).map fun client2 =>
          { repo with RepositoryHTTPClient := some client2 } := by
      simp [httpClientStep, ResourceData.getOk, ResourceData.get, optBlock, goTruthy,
        h, asList, asMap, asBool, HttpClientData.go]
    rw [hstep, authPart_eq]
    simp only [Option.some_bind]
    rw [connectionPart_eq]
    cases hcn : hc.connection with
    | nil =>
      simp [connectionPanics, h, hcn, httpClientToDomain, Option.elim]
      cases authListToDomain hc.authentication <;> rfl
    | cons c rest =>
      cases c with
      | none =>
        cases rest with
        | nil =>
          simp [connectionPanics, h, hcn, httpClientToDomain, Option.elim]
          cases authListToDomain hc.authentication <;> rfl
        | cons c2 rest2 =>
          simp [connectionPanics, h, hcn, httpClientToDomain, Option.elim]
          cases authListToDomain hc.authentication <;> rfl
      | some cd =>
        cases rest with
        | nil => simp [connectionPanics, h, hcn]
        | cons c2 rest2 =>
          simp [connectionPanics, h, hcn, httpClientToDomain, Option.elim]
          cases authListToDomain hc.authentication <;> rfl

theorem negativeCacheStep_eq (d : ResourceData) (repo : Repository) :
    negativeCacheStep d repo = some (match d.negative_cache with
      | some n => { repo with RepositoryNegativeCache := some ⟨n.enabled, n.ttl⟩ }
      | none => repo) := by
  cases h : d.negative_cache <;>
    simp [negativeCacheStep, ResourceData.getOk, ResourceData.get, optBlock, goTruthy,
      asList, asMap, asBool, asInt, NegativeCacheData.go, h]

theorem proxyStep_eq (d : ResourceData) (repo : Repository) :
    proxyStep d repo = some (match d.proxy with
      | some p => { repo with RepositoryProxy := some ⟨p.content_max_age, p.metadata_max_age, p.remote_url⟩ }
      | none => repo) := by
  cases h : d.proxy <;>
    simp [proxyStep, ResourceData.getOk, ResourceData.get, optBlock, goTruthy,
      asList, asMap, asString, asInt, ProxyData.go, h]

theorem storageStep_eq (d : ResourceData) (repo : Repository)
    (hty : repo.RepoType = "proxy") :
    storageStep d repo = some (match d.storage with
      | some s => { repo with RepositoryStorage := some ⟨s.blob_store_name, s.strict_content_type_validation, none⟩ }
      | none => repo) := by
  cases h : d.storage <;>
    simp [storageStep, ResourceData.getOk, ResourceData.get, optBlock, goTruthy,
      asList, asMap, asString, asBool, StorageData.go, h, hty, RepositoryTypeHosted]

theorem get_name (d : ResourceData) : d.get "name" = .goStr d.name := rfl

theorem get_online (d : ResourceData) : d.get "online" = .goBool d.online := rfl

/-- Full characterization of `getRepositoryAptProxyFromResourceData`: it
panics exactly on a present connection sub-block, and otherwise returns
`expectedAptProxyRepository d`. -/
theorem getRepositoryAptProxy_characterization (d : ResourceData) :
    getRepositoryAptProxyFromResourceData d =
      if connectionPanics d then none else some (expectedAptProxyRepository d) := by
  obtain ⟨rid, name, online, storage, cleanup, http_client, ncache, proxy, rrule, apt⟩ := d
  unfold getRepositoryAptProxyFromResourceData aptProxySteps
  rw [get_name, get_online]
  simp only [asString, asBool, Option.some_bind]
  rw [aptStep_eq]
  simp only [Option.some_bind]
  rw [cleanupStep_eq]
  simp only [Option.some_bind]
  rw [groupStep_eq]
  simp only [Option.some_bind]
  rw [httpClientStep_eq]
  by_cases hp : connectionPanics ⟨rid, name, online, storage, cleanup, http_client, ncache, proxy, rrule, apt⟩
  · simp [hp]
  · simp only [hp, if_false, Bool.false_eq_true, Option.some_bind]
    rw [negativeCacheStep_eq]
    simp only [Option.some_bind]
    rw [proxyStep_eq]
    simp only [Option.some_bind]
    rw [storageStep_eq]
    · simp only [expectedAptProxyRepository]
      cases apt <;> cases cleanup <;> cases http_client <;>
        cases ncache <;> cases proxy <;> cases storage <;> rfl
    · cases apt <;> cases cleanup <;> cases http_client <;>
        cases ncache <;> cases proxy <;> rfl

/-! ## Handler lemmas -/

theorem readHandler_calls (c : Client) (d : ResourceData) :
    (resourceRepositoryAptProxyRead c d).2 = [.readCall d.rid] := by
  unfold resourceRepositoryAptProxyRead
  cases h2 : (c.RepositoryRead d.rid).2 with
  | some e => simp [h2]
  | none =>
    cases h1 : (c.RepositoryRead d.rid).1 <;>
      simp [h1, h2, setRepositoryToResourceData]

/-! ## Claims -/

/-- C1, amended: `getRepositoryAptProxyFromResourceData` translates
`name`, `online`, `storage`, `cleanup`, `proxy`, `negative_cache`,
`http_client` (its `blocked`/`auto_block` flags and its `authentication`
sub-block) and `apt` into the corresponding fields of the `Repository`
request; the `routing_rule` field is never read, so the result is
independent of it, and the `connection` sub-block is never translated
(a present one makes the function panic instead). -/
theorem C1_marshal_translates_retained_fields (d : ResourceData) (repo : Repository)
    (h : getRepositoryAptProxyFromResourceData d = some repo) :
    (repo.Name = d.name ∧ repo.Online = d.online ∧
      repo.RepositoryStorage = (d.storage.map fun s => ⟨s.blob_store_name, s.strict_content_type_validation, none⟩) ∧
      repo.RepositoryCleanup = (d.cleanup.map fun c => ⟨c.policy_names⟩) ∧
      repo.RepositoryHTTPClient = d.http_client.map httpClientToDomain ∧
      repo.RepositoryNegativeCache = (d.negative_cache.map fun n => ⟨n.enabled, n.ttl⟩) ∧
      repo.RepositoryProxy = (d.proxy.map fun p => ⟨p.content_max_age, p.metadata_max_age, p.remote_url⟩) ∧
      repo.RepositoryApt = (d.apt.map fun a => ⟨a.distribution, a.flat⟩)) ∧
    (∀ x, getRepositoryAptProxyFromResourceData { d with routing_rule := x } = some repo) := by
  have hchar := getRepositoryAptProxy_characterization d
  rw [h] at hchar
  cases hp : connectionPanics d with
  | true => rw [hp] at hchar; simp at hchar
  | false =>
    rw [hp] at hchar
    simp only [Bool.false_eq_true, if_false] at hchar
    have hrepo : repo = expectedAptProxyRepository d := by
      exact Option.some.inj hchar
    subst hrepo
    refine ⟨⟨rfl, rfl, rfl, rfl, rfl, rfl, rfl, rfl⟩, ?_⟩
    intro x
    have hcp : connectionPanics { d with routing_rule := x } = connectionPanics d := rfl
    have hexp : expectedAptProxyRepository { d with routing_rule := x } =
        expectedAptProxyRepository d := rfl
    rw [getRepositoryAptProxy_characterization, hcp, hp, hexp]
    simp

/-- C1 witness: the fully populated sample configuration marshals to the
expected repository, and its result is unchanged under a different
`routing_rule`. -/
theorem C1_marshal_translates_retained_fields_witness :
    (expectedAptProxyRepository sampleData).Name = sampleData.name ∧
    getRepositoryAptProxyFromResourceData { sampleData with routing_rule := "rule-b" } =
      some (expectedAptProxyRepository sampleData) :=
  ⟨(C1_marshal_translates_retained_fields sampleData
      (expectedAptProxyRepository sampleData) rfl).1.1,
    (C1_marshal_translates_retained_fields sampleData
      (expectedAptProxyRepository sampleData) rfl).2 "rule-b"⟩

/-- C1 counterexample: two configurations differing only in the
configured `routing_rule` field marshal to the same Repository — the
field is dropped, refuting "no configured field is dropped". -/
theorem C1_routing_rule_dropped :
    sampleData ≠ { sampleData with routing_rule := "rule-b" } ∧
    getRepositoryAptProxyFromResourceData sampleData =
      getRepositoryAptProxyFromResourceData { sampleData with routing_rule := "rule-b" } := by
  constructor
  · decide
  · rfl

/-- C2: the claim fails on the code.  For every configuration whose
`http_client` block carries a (single, non-nil) `connection` sub-block,
the `.(*int)` type assertions on `retries` and `timeout` fail — the SDK
stores those `TypeInt` values as Go `int`, not `*int` — so the marshaling
panics and `Connection` is never populated. -/
theorem C2_connection_block_panics (d : ResourceData) (hc : HttpClientData)
    (conn : ConnectionData) (h1 : d.http_client = some hc)
    (h2 : hc.connection = [some conn]) :
    getRepositoryAptProxyFromResourceData d = none := by
  rw [getRepositoryAptProxy_characterization]
  simp [connectionPanics, h1, h2]

/-- C2 witness: the usage example at the head of the source file (with
its `connection { retries = 0  timeout = 60 }` block) panics. -/
theorem C2_connection_block_panics_witness :
    sampleDataConn.http_client =
      some { sampleHttpClient with connection := [some sampleConnection] } ∧
    getRepositoryAptProxyFromResourceData sampleDataConn = none :=
  ⟨rfl, C2_connection_block_panics sampleDataConn
    { sampleHttpClient with connection := [some sampleConnection] }
    sampleConnection rfl rfl⟩

/-- C3, amended: Read, Delete and Exists issue exactly one client
request per invocation; Create and Update issue at most two — the write,
plus one delegated read on success; within one handler invocation no
request is ever repeated (the traces are duplicate-free), and in
particular a failed client call is never retried: when the write fails it
is the only request issued. -/
theorem C3_request_counts (c : Client) (d : ResourceData) :
    (resourceRepositoryAptProxyRead c d).2.length = 1 ∧
    (resourceRepositoryAptProxyDelete c d).2.length = 1 ∧
    (resourceRepositoryAptProxyExists c d).2.length = 1 ∧
    (resourceRepositoryAptProxyCreate c d).2.length ≤ 2 ∧
    (resourceRepositoryAptProxyUpdate c d).2.length ≤ 2 ∧
    (resourceRepositoryAptProxyCreate c d).2.Nodup ∧
    (resourceRepositoryAptProxyUpdate c d).2.Nodup ∧
    (∀ repo e, getRepositoryAptProxyFromResourceData d = some repo →
      c.RepositoryCreate repo = some e →
      (resourceRepositoryAptProxyCreate c d).2 = [.createCall repo]) ∧
    (∀ repo e, getRepositoryAptProxyFromResourceData d = some repo →
      c.RepositoryUpdate d.rid repo = some e →
      (resourceRepositoryAptProxyUpdate c d).2 = [.updateCall d.rid repo]) := by
  have hcreate : (resourceRepositoryAptProxyCreate c d).2.length ≤ 2 ∧
      (resourceRepositoryAptProxyCreate c d).2.Nodup ∧
      (∀ repo e, getRepositoryAptProxyFromResourceData d = some repo →
        c.RepositoryCreate repo = some e →
        (resourceRepositoryAptProxyCreate c d).2 = [.createCall repo]) := by
    unfold resourceRepositoryAptProxyCreate
    cases hg : getRepositoryAptProxyFromResourceData d with
    | none => simp
    | some repo =>
      cases hcr : c.RepositoryCreate repo with
      | some e =>
        refine ⟨by simp [hcr], by simp [hcr], ?_⟩
        intro repo2 e2 hg2 _
        cases hg2
        simp [hcr]
      | none =>
        refine ⟨?_, ?_, ?_⟩
        · simp [hcr, setRepositoryToResourceData, readHandler_calls]
        · simp [hcr, setRepositoryToResourceData, readHandler_calls]
        · intro repo2 e2 hg2 hcr2
          cases hg2
          rw [hcr] at hcr2
          cases hcr2
  have hupdate : (resourceRepositoryAptProxyUpdate c d).2.length ≤ 2 ∧
      (resourceRepositoryAptProxyUpdate c d).2.Nodup ∧
      (∀ repo e, getRepositoryAptProxyFromResourceData d = some repo →
        c.RepositoryUpdate d.rid repo = some e →
        (resourceRepositoryAptProxyUpdate c d).2 = [.updateCall d.rid repo]) := by
    unfold resourceRepositoryAptProxyUpdate
    cases hg : getRepositoryAptProxyFromResourceData d with
    | none => simp
    | some repo =>
      cases hcr : c.RepositoryUpdate d.rid repo with
      | some e =>
        refine ⟨by simp [hcr], by simp [hcr], ?_⟩
        intro repo2 e2 hg2 _
        cases hg2
        simp [hcr]
      | none =>
        refine ⟨?_, ?_, ?_⟩
        · simp [hcr, setRepositoryToResourceData, resourceRepositoryRead, readHandler_calls]
        · simp [hcr, setRepositoryToResourceData, resourceRepositoryRead, readHandler_calls]
        · intro repo2 e2 hg2 hcr2
          cases hg2
          rw [hcr] at hcr2
          cases hcr2
  exact ⟨by rw [readHandler_calls]; rfl, rfl, rfl, hcreate.1, hupdate.1,
    hcreate.2.1, hupdate.2.1, hcreate.2.2, hupdate.2.2⟩

/-- C3 witness: on an all-failing client, the Read handler still issues
exactly one request, and the failed Create issues only the one create
request — no retry. -/
theorem C3_request_counts_witness :
    (resourceRepositoryAptProxyRead clientFail sampleData).2.length = 1 ∧
    (resourceRepositoryAptProxyCreate clientFail sampleData).2 =
      [.createCall (expectedAptProxyRepository sampleData)] :=
  ⟨(C3_request_counts clientFail sampleData).1,
    (C3_request_counts clientFail sampleData).2.2.2.2.2.2.2.1
      (expectedAptProxyRepository sampleData) "boom" rfl rfl⟩

/-- C3 counterexample: a successful Create issues two client requests —
the create and its delegated read — not exactly one. -/
theorem C3_create_two_requests :
    (resourceRepositoryAptProxyCreate clientOk sampleData).2.length = 2 := rfl

/-- C4: whenever an invoked client method returns a non-nil error, the
handler returns exactly that error value, leaving the data of the failed
step as it was (for the delegated read after a successful create, the
data carries only the write-back of the marshaled repository). -/
theorem C4_error_passthrough (c : Client) (d : ResourceData) (e : String) :
    (∀ repo, getRepositoryAptProxyFromResourceData d = some repo →
      c.RepositoryCreate repo = some e →
      (resourceRepositoryAptProxyCreate c d).1 = .ok (d, some e)) ∧
    ((c.RepositoryRead d.rid).2 = some e →
      (resourceRepositoryAptProxyRead c d).1 = .ok (d, some e)) ∧
    (∀ repo, getRepositoryAptProxyFromResourceData d = some repo →
      c.RepositoryUpdate d.rid repo = some e →
      (resourceRepositoryAptProxyUpdate c d).1 = .ok (d, some e)) ∧
    (c.RepositoryDelete d.rid = some e →
      (resourceRepositoryAptProxyDelete c d).1 = .ok (d, some e)) ∧
    ((c.RepositoryRead d.rid).2 = some e →
      ((resourceRepositoryAptProxyExists c d).1).2 = some e) ∧
    (∀ repo, getRepositoryAptProxyFromResourceData d = some repo →
      c.RepositoryCreate repo = none →
      (c.RepositoryRead repo.Name).2 = some e →
      (resourceRepositoryAptProxyCreate c d).1 =
        .ok ((setRepositoryToResourceData repo d).1, some e)) := by
  refine ⟨?_, ?_, ?_, ?_, ?_, ?_⟩
  · intro repo hg hcr
    simp [resourceRepositoryAptProxyCreate, hg, hcr]
  · intro h2
    simp [resourceRepositoryAptProxyRead, h2]
  · intro repo hg hcr
    simp [resourceRepositoryAptProxyUpdate, hg, hcr]
  · intro h
    simp [resourceRepositoryAptProxyDelete, h]
  · intro h
    simp [resourceRepositoryAptProxyExists, h]
  · intro repo hg hcr hre
    simp [resourceRepositoryAptProxyCreate, hg, hcr, resourceRepositoryAptProxyRead,
      setRepositoryToResourceData, hre]

/-- C4 witness: on an all-failing client the Create and Delete handlers
return the client's error unchanged. -/
theorem C4_error_passthrough_witness :
    (resourceRepositoryAptProxyCreate clientFail sampleData).1 =
      .ok (sampleData, some "boom") ∧
    (resourceRepositoryAptProxyDelete clientFail sampleData).1 =
      .ok (sampleData, some "boom") :=
  ⟨(C4_error_passthrough clientFail sampleData "boom").1
      (expectedAptProxyRepository sampleData) rfl rfl,
    (C4_error_passthrough clientFail sampleData "boom").2.2.2.1 rfl⟩

/-- C5, amended: for every resource data whose `http_client` block, if
present, carries no connection sub-block and whose authentication list is
empty or a single non-nil element, marshaling followed by write-back
leaves every schema field of the resource data unchanged; only the
non-schema resource id is set (to the repository name). -/
theorem C5_roundtrip_preserves_schema_fields (d : ResourceData)
    (h : roundTripSafe d = true) :
    aptProxyRoundTrip d = some { d with rid := d.name } := by
  obtain ⟨rid, name, online, storage, cleanup, http_client, ncache, proxy, rrule, apt⟩ := d
  unfold aptProxyRoundTrip
  rw [getRepositoryAptProxy_characterization]
  cases http_client with
  | none =>
    simp only [connectionPanics, Bool.false_eq_true, if_false]
    simp only [expectedAptProxyRepository, setRepositoryToResourceData, Option.map_some]
    cases storage <;> cases cleanup <;> cases ncache <;> cases proxy <;> cases apt <;> rfl
  | some hc =>
    obtain ⟨blocked, auto_block, conn, auth⟩ := hc
    simp only [roundTripSafe] at h
    cases conn with
    | cons c0 rest => simp at h
    | nil =>
      simp only [List.isEmpty_nil, Bool.true_and] at h
      cases auth with
      | nil =>
        simp only [connectionPanics, Bool.false_eq_true, if_false]
        simp only [expectedAptProxyRepository, setRepositoryToResourceData,
          httpClientToDomain, authListToDomain, Option.map_some]
        cases storage <;> cases cleanup <;> cases ncache <;> cases proxy <;> cases apt <;> rfl
      | cons a0 rest =>
        cases a0 with
        | none => simp at h
        | some a =>
          cases rest with
          | cons a1 rest2 => simp at h
          | nil =>
            simp only [connectionPanics, Bool.false_eq_true, if_false]
            simp only [expectedAptProxyRepository, setRepositoryToResourceData,
              httpClientToDomain, authListToDomain, authToDomain, Option.map_some]
            cases storage <;> cases cleanup <;> cases ncache <;> cases proxy <;>
              cases apt <;> rfl

/-- C5 witness: the fully populated sample configuration (authentication
but no connection sub-block) round-trips with every schema field intact. -/
theorem C5_roundtrip_preserves_schema_fields_witness :
    roundTripSafe sampleData = true ∧
    aptProxyRoundTrip sampleData = some { sampleData with rid := sampleData.name } :=
  ⟨rfl, C5_roundtrip_preserves_schema_fields sampleData rfl⟩

/-- C5 counterexample: on the configuration with a connection sub-block,
the marshaling panics, so the round trip produces no resource data at all
— the schema fields are not preserved. -/
theorem C5_roundtrip_panics_on_connection :
    aptProxyRoundTrip sampleDataConn = none := rfl

/-- C6: the Exists handler issues exactly one read, keyed by the resource
id, and returns true precisely when the client's read returned a non-nil
repository, alongside the client's error unchanged. -/
theorem C6_exists_single_read (c : Client) (d : ResourceData) :
    resourceRepositoryAptProxyExists c d =
      (((c.RepositoryRead d.rid).1.isSome, (c.RepositoryRead d.rid).2),
        [.readCall d.rid]) ∧
    (((resourceRepositoryAptProxyExists c d).1.1 = true) ↔
      (c.RepositoryRead d.rid).1 ≠ none) := by
  refine ⟨rfl, ?_⟩
  simp [resourceRepositoryAptProxyExists, Option.isSome_iff_ne_none]

/-- C7: when the create or update client call fails, the handler returns
before any write-back — the resource data it returns is exactly the input
data. -/
theorem C7_no_writeback_on_error (c : Client) (d : ResourceData)
    (repo : Repository) (e : String)
    (hget : getRepositoryAptProxyFromResourceData d = some repo) :
    (c.RepositoryCreate repo = some e →
      resourceRepositoryAptProxyCreate c d = (.ok (d, some e), [.createCall repo])) ∧
    (c.RepositoryUpdate d.rid repo = some e →
      resourceRepositoryAptProxyUpdate c d =
        (.ok (d, some e), [.updateCall d.rid repo])) := by
  constructor
  · intro hcr
    simp [resourceRepositoryAptProxyCreate, hget, hcr]
  · intro hcr
    simp [resourceRepositoryAptProxyUpdate, hget, hcr]

/-- C7 witness: on the all-failing client, Create and Update leave the
sample data untouched and return the client's error. -/
theorem C7_no_writeback_on_error_witness :
    resourceRepositoryAptProxyCreate clientFail sampleData =
      (.ok (sampleData, some "boom"),
        [.createCall (expectedAptProxyRepository sampleData)]) ∧
    resourceRepositoryAptProxyUpdate clientFail sampleData =
      (.ok (sampleData, some "boom"),
        [.updateCall sampleData.rid (expectedAptProxyRepository sampleData)]) :=
  ⟨(C7_no_writeback_on_error clientFail sampleData
      (expectedAptProxyRepository sampleData) "boom" rfl).1 rfl,
    (C7_no_writeback_on_error clientFail sampleData
      (expectedAptProxyRepository sampleData) "boom" rfl).2 rfl⟩

/-- C8: every marshaled repository has `Format = "apt"` and
`Type = "proxy"`; consequently its storage never carries a write policy
(the hosted-only branch is unreachable) and its group component is never
populated — indeed `GetOk("group")` never reports a value on the apt
proxy schema. -/
theorem C8_format_type_invariants (d : ResourceData) (repo : Repository)
    (h : getRepositoryAptProxyFromResourceData d = some repo) :
    repo.Format = "apt" ∧ repo.RepoType = "proxy" ∧
    (∀ s, repo.RepositoryStorage = some s → s.WritePolicy = none) ∧
    repo.RepositoryGroup = none ∧
    d.getOk "group" = false := by
  have hchar := getRepositoryAptProxy_characterization d
  rw [h] at hchar
  cases hp : connectionPanics d with
  | true => rw [hp] at hchar; simp at hchar
  | false =>
    rw [hp] at hchar
    simp only [Bool.false_eq_true, if_false] at hchar
    have hrepo := Option.some.inj hchar
    subst hrepo
    refine ⟨rfl, rfl, ?_, rfl, rfl⟩
    intro s hs
    simp only [expectedAptProxyRepository] at hs
    cases hd : d.storage with
    | none => rw [hd] at hs; simp at hs
    | some st =>
      rw [hd] at hs
      simp only [Option.map_some'] at hs
      injection hs with hs2
      subst hs2
      rfl

/-- C8 witness: the marshaled sample configuration satisfies the
invariants. -/
theorem C8_format_type_invariants_witness :
    (expectedAptProxyRepository sampleData).Format = "apt" ∧
    (expectedAptProxyRepository sampleData).RepoType = "proxy" :=
  ⟨(C8_format_type_invariants sampleData (expectedAptProxyRepository sampleData) rfl).1,
    (C8_format_type_invariants sampleData (expectedAptProxyRepository sampleData) rfl).2.1⟩

/-- C9: when the client read returns a nil repository together with a nil
error, the Read handler clears the resource id, returns no error, and
leaves every other field of the resource data unchanged. -/
theorem C9_read_nil_clears_id (c : Client) (d : ResourceData)
    (h : c.RepositoryRead d.rid = (none, none)) :
    resourceRepositoryAptProxyRead c d =
      (.ok ({ d with rid := "" }, none), [.readCall d.rid]) := by
  simp [resourceRepositoryAptProxyRead, h]

/-- C9 witness: on the client whose reads find nothing, the Read handler
clears the sample data's id and changes nothing else. -/
theorem C9_read_nil_clears_id_witness :
    resourceRepositoryAptProxyRead clientOk sampleData =
      (.ok ({ sampleData with rid := "" }, none), [.readCall sampleData.rid]) :=
  C9_read_nil_clears_id clientOk sampleData rfl

theorem read2_proj_fst (c : Client) (d : ResourceData2) :
    mapHandlerOutcome projectAptProxy (resourceRepositoryAptProxyRead2 c d).1 =
      (resourceRepositoryAptProxyRead c (projectAptProxy d)).1 := by
  unfold resourceRepositoryAptProxyRead2 resourceRepositoryAptProxyRead
  have hrid : (projectAptProxy d).rid = d.rid := rfl
  rw [hrid]
  cases h2 : (c.RepositoryRead d.rid).2 with
  | some e => simp [h2, mapHandlerOutcome]
  | none =>
    cases h1 : (c.RepositoryRead d.rid).1 with
    | none => simp [h1, h2, mapHandlerOutcome, projectAptProxy]
    | some repo =>
      simp [h1, h2, mapHandlerOutcome, projectAptProxy,
        setRepositoryToResourceData2, setRepositoryToResourceData]

theorem read2_proj_snd (c : Client) (d : ResourceData2) :
    (resourceRepositoryAptProxyRead2 c d).2 =
      (resourceRepositoryAptProxyRead c (projectAptProxy d)).2 := by
  unfold resourceRepositoryAptProxyRead2 resourceRepositoryAptProxyRead
  have hrid : (projectAptProxy d).rid = d.rid := rfl
  rw [hrid]
  cases h2 : (c.RepositoryRead d.rid).2 with
  | some e => simp [h2]
  | none =>
    cases h1 : (c.RepositoryRead d.rid).1 with
    | none => simp [h1, h2]
    | some repo =>
      simp [h1, h2, setRepositoryToResourceData2, setRepositoryToResourceData]

/-- C10, amended: the two variants' Create handlers are equivalent
whenever the second variant's `format` and `type` fields hold their
schema defaults `"apt"` and `"proxy"`: they issue the same client calls
with the same Repository argument and leave projection-equal resource
data with equal errors.  With any other configured `format` or `type`
the marshaled Repository differs. -/
theorem C10_variants_agree_on_defaults (c : Client) (d2 : ResourceData2)
    (hf : d2.format = "apt") (ht : d2.type = "proxy") :
    mapHandlerResult projectAptProxy (resourceRepositoryAptProxyCreate2 c d2) =
      resourceRepositoryAptProxyCreate c (projectAptProxy d2) := by
  have hget : getRepositoryFromResourceData d2 =
      getRepositoryAptProxyFromResourceData (projectAptProxy d2) := by
    unfold getRepositoryFromResourceData getRepositoryAptProxyFromResourceData
    rw [hf, ht]
  unfold resourceRepositoryAptProxyCreate2 resourceRepositoryAptProxyCreate
  rw [hget]
  cases hg : getRepositoryAptProxyFromResourceData (projectAptProxy d2) with
  | none => rfl
  | some repo =>
    cases hcr : c.RepositoryCreate repo with
    | some e => simp [hcr, mapHandlerResult, mapHandlerOutcome]
    | none =>
      simp only [hcr, setRepositoryToResourceData2, setRepositoryToResourceData,
        mapHandlerResult]
      rw [read2_proj_fst, read2_proj_snd]
      rfl

/-- C10 witness: on the schema defaults, the two variants' Create
handlers coincide on the sample configuration. -/
theorem C10_variants_agree_on_defaults_witness :
    sampleData2.format = "apt" ∧
    mapHandlerResult projectAptProxy
        (resourceRepositoryAptProxyCreate2 clientOk sampleData2) =
      resourceRepositoryAptProxyCreate clientOk (projectAptProxy sampleData2) :=
  ⟨rfl, C10_variants_agree_on_defaults clientOk sampleData2 rfl rfl⟩

/-- C10 counterexample: with the legal non-default `format = "yum"` the
two variants' Create handlers issue different client calls — the second
variant sends `Format = "yum"` where the first hard-codes `"apt"`. -/
theorem C10_variants_differ_on_format :
    (resourceRepositoryAptProxyCreate2 clientOk sampleData2Yum).2 ≠
      (resourceRepositoryAptProxyCreate clientOk (projectAptProxy sampleData2Yum)).2 := by
  decide

end Nexus
